import Mathlib

/-!
Verification of the connection-lifecycle / session protocol layer of the
`crypto-exchanges-ws-client` Node.js library (`lib/client.js`).

The client state and its operations are shallowly embedded below, translated
from the source: `_send`, `_queueMessages`, `_processQueue`, `execute`,
`_processMessage`, `_processResultMessage`, `_processErrorMessage`,
`_processNotificationMessage`, `_getUri`, `connect`, `disconnect`,
`reconnect` and `_createConnection`.  The raw websocket transport
(`lib/websocket-connection.js`) is an external collaborator; where its
behaviour decides a property it is modelled from the specification's
transport contract and marked as such in the doc comment.
-/

/-- Observable events emitted by the client (the `emit` calls in
`lib/client.js`): connection lifecycle events, the `ready` event, the two
notification delivery modes, and the invocation of a caller's result
handler (handlers are identified by an opaque numeric token). -/
inductive Event
  | connected (connectionId : Nat)
  | disconnected (connectionId : Nat) (code : Nat) (reason : String)
  | connectionError (connectionId : Nat) (attempts : Nat) (error : Nat)
  | terminated (connectionId : Nat) (attempts : Nat) (error : Nat)
  | ready (sessionId : String) (isNew : Bool)
  | notif (kind : String) (d : Nat)
  | notifGlobal (kind : String) (d : Nat)
  | invoked (handler : Nat) (result : Option Nat) (error : Option Nat)
deriving DecidableEq, Repr

/-- Payload of the inbound handshake frame `{hello:{sid,isNew}}`. -/
structure HelloData where
  sid : String
  isNew : Bool
deriving DecidableEq, Repr

/-- A parsed inbound frame.  Fields that may be absent in the JSON object
(`hello`, `n`, `r`, `e`, `i`) are `Option`s, mirroring the
`undefined !== data.x` checks in `_processMessage`; result / error /
notification payloads are opaque numeric tokens. -/
structure InFrame where
  hello : Option HelloData := none
  n : Option String := none
  d : Nat := 0
  r : Option Nat := none
  e : Option Nat := none
  i : Option Nat := none
deriving DecidableEq, Repr

/-- An outbound command frame `{m,p?,i?}` built by `execute`. -/
structure OutMessage where
  m : String
  p : Option Nat := none
  i : Option Nat := none
deriving DecidableEq, Repr

/-- The client's view of its current transport connection object:
its id (`_connectionCounter` value at creation), whether the transport
has reported `connected` (the `isConnected()` test), and the list of
frames handed to `connection.send`, in order. -/
structure Conn where
  id : Nat
  connected : Bool
  sent : List OutMessage
deriving DecidableEq, Repr

/-- The mutable state of a `Client` instance (the `this._*` fields of
`lib/client.js` that the lifecycle / session / correlation / buffering
logic reads and writes).  `callbacks` is the `commandId => callback`
mapping, with callbacks identified by opaque numeric tokens. -/
structure ClientState where
  uri : String
  sessionId : Option String
  queryParams : List (String × String)
  globalListener : Bool
  readyTimestamp : Option Nat
  connectedTimestamp : Option Nat
  nextCommandId : Nat
  callbacks : List (Nat × Nat)
  queue : List OutMessage
  connection : Option Conn
  connectionCounter : Nat
deriving DecidableEq, Repr

/-- The state built by the constructor after argument parsing (with
`autoConnect:false`): counters and timestamps at their initial values,
empty callback map and queue, no connection. -/
def initialState (uri : String) (sessionId : Option String)
    (queryParams : List (String × String)) (globalListener : Bool) : ClientState :=
  { uri := uri
    sessionId := sessionId
    queryParams := queryParams
    globalListener := globalListener
    readyTimestamp := none
    connectedTimestamp := none
    nextCommandId := 1
    callbacks := []
    queue := []
    connection := none
    connectionCounter := 0 }

/-- The frames transmitted so far on the current connection (empty when no
connection exists). -/
def sentOf (st : ClientState) : List OutMessage :=
  match st.connection with
  | none => []
  | some c => c.sent

/-- `_queueMessages(list)`: appends each entry of `list` to `this._queue`. -/
def queueMessages (st : ClientState) (list : List OutMessage) : ClientState :=
  { st with queue := st.queue ++ list }

/-- `_processQueue()`: returns early when the queue is empty or when
`this._connection` is `null` (disconnection requested by the client);
otherwise sends every queued frame on the connection in order and then
resets the queue to `[]`. -/
def processQueue (st : ClientState) : ClientState :=
  if st.queue.length = 0 then st
  else
    match st.connection with
    | none => st
    | some c =>
      { st with connection := some { c with sent := c.sent ++ st.queue }, queue := [] }

/-- `_createConnection()` without delay, restricted to the fields of the
client state: increments `_connectionCounter`, installs a fresh
`WebSocketConnection` as `this._connection` and initiates its connection
(the transport reports `connected` later, so the new connection starts
with `connected := false`). -/
def createConnection (st : ClientState) : ClientState :=
  let counter := st.connectionCounter + 1
  { st with connectionCounter := counter
            connection := some { id := counter, connected := false, sent := [] } }

/-- `_send(list)`: lazily creates a connection (queuing first) when
`this._connection` is `null`; queues when the connection is not yet
connected; queues when no `hello` message has been received yet
(`this._readyTimestamp` is `null`); otherwise sends each frame on the
connection immediately. -/
def send (st : ClientState) (list : List OutMessage) : ClientState :=
  match st.connection with
  | none => createConnection (queueMessages st list)
  | some c =>
    if c.connected = false then queueMessages st list
    else if st.readyTimestamp = none then queueMessages st list
    else { st with connection := some { c with sent := c.sent ++ list } }

/-- `execute(command, params, cb)`: builds `{m,p?}`; when a callback is
supplied it attaches `i = this._nextCommandId++` and registers the
callback in `this._callbacks` before calling `_send`; otherwise the frame
carries no `i`. -/
def execute (st : ClientState) (command : String) (params : Option Nat)
    (cb : Option Nat) : ClientState :=
  let message : OutMessage := { m := command, p := params }
  match cb with
  | none => send st [message]
  | some h =>
    let i := st.nextCommandId
    let message := { message with i := some i }
    let st1 := { st with nextCommandId := st.nextCommandId + 1
                         callbacks := (i, h) :: st.callbacks }
    send st1 [message]

/-- `connect()`: does nothing when a connection already exists, otherwise
creates one. -/
def connect (st : ClientState) : ClientState :=
  match st.connection with
  | some _ => st
  | none => createConnection st

/-- `disconnect()`: does nothing when no connection exists; otherwise
clears `this._connection` (and closes the transport, which the client
state no longer references). -/
def disconnect (st : ClientState) : ClientState :=
  match st.connection with
  | none => st
  | some _ => { st with connection := none }

/-- `reconnect()`: does nothing when no connection exists; otherwise
closes the current transport and creates a fresh connection in its
place. -/
def reconnect (st : ClientState) : ClientState :=
  match st.connection with
  | none => st
  | some _ => createConnection st

/-- The transport's `connected` event for the current connection: the
handler records `this._connectedTimestamp`; the transport is now open so
`isConnected()` becomes true. -/
def evConnected (st : ClientState) (now : Nat) : ClientState :=
  match st.connection with
  | none => st
  | some c =>
    { st with connection := some { c with connected := true }
              connectedTimestamp := some now }

/-- `_processNotificationMessage(data)`: re-emits the notification under
its kind (`data.n`) in per-kind mode, or under the shared `notification`
channel with the kind injected into the payload in global-listener
mode. -/
def processNotificationMessage (st : ClientState) (kind : String) (d : Nat) :
    List Event :=
  if st.globalListener = false then [Event.notif kind d]
  else [Event.notifGlobal kind d]

/-- `_processResultMessage(data)`: looks up `this._callbacks[data.i]`;
when absent, returns silently; when present, removes the entry and
invokes the callback with `(data.r, null)`. -/
def processResultMessage (st : ClientState) (data : InFrame) :
    ClientState × List Event :=
  match data.i with
  | none => (st, [])
  | some i =>
    match st.callbacks.lookup i with
    | none => (st, [])
    | some cb =>
      ({ st with callbacks := st.callbacks.eraseP (fun kv => kv.1 == i) },
       [Event.invoked cb data.r none])

/-- `_processErrorMessage(data)`: looks up `this._callbacks[data.i]`;
when absent, returns silently; when present, removes the entry and
invokes the callback with `(null, data.e)`. -/
def processErrorMessage (st : ClientState) (data : InFrame) :
    ClientState × List Event :=
  match data.i with
  | none => (st, [])
  | some i =>
    match st.callbacks.lookup i with
    | none => (st, [])
    | some cb =>
      ({ st with callbacks := st.callbacks.eraseP (fun kv => kv.1 == i) },
       [Event.invoked cb none data.e])

/-- `_processMessage(message)`: `none` stands for a message that failed
`JSON.parse` (swallowed by the catch block).  A `hello` frame stores the
session id, marks the session ready and emits `ready` when the session
was never ready or the server reports a new session, then flushes the
queue.  Any other frame is dropped before the session has ever been
ready; otherwise it is dispatched on the first defined field among
`n` / `r` / `e`, and dropped when none is defined. -/
def processMessage (st : ClientState) (now : Nat) (msg : Option InFrame) :
    ClientState × List Event :=
  match msg with
  | none => (st, [])
  | some data =>
    match data.hello with
    | some h =>
      let st1 := { st with sessionId := some h.sid }
      if st1.readyTimestamp = none ∨ h.isNew = true then
        let st2 := { st1 with readyTimestamp := some now }
        (processQueue st2, [Event.ready h.sid h.isNew])
      else
        (processQueue st1, [])
    | none =>
      if st.readyTimestamp = none then (st, [])
      else
        match data.n with
        | some kind => (st, processNotificationMessage st kind data.d)
        | none =>
          match data.r with
          | some _ => processResultMessage st data
          | none =>
            match data.e with
            | some _ => processErrorMessage st data
            | none => (st, [])

/-- `_getUri()`: the base uri paired with the query parameters attached to
it.  When a session id is known it is sent as `sid`, followed by the
stored query parameters — except that `expires` and `timeout` are only
sent while `this._readyTimestamp` is still `null` (first connection). -/
def getUri (st : ClientState) : String × List (String × String) :=
  let params : List (String × String) :=
    match st.sessionId with
    | none => []
    | some sid =>
      ("sid", sid) ::
        st.queryParams.filterMap (fun kv =>
          if (kv.1 = "expires" ∨ kv.1 = "timeout") ∧ st.readyTimestamp ≠ none then
            none
          else some kv)
  (st.uri, params)

/-- A caller operation or transport event applied to the client state
(events that `_processMessage` would emit are dropped by `applyOp`; the
theorems about emitted events use `processMessage` directly). -/
inductive COp
  | connectOp
  | disconnectOp
  | reconnectOp
  | executeOp (command : String) (params : Option Nat) (cb : Option Nat)
  | sendOp (list : List OutMessage)
  | messageOp (now : Nat) (msg : Option InFrame)
  | connectedOp (now : Nat)
deriving Repr

/-- Applies one operation to the client state. -/
def applyOp (st : ClientState) : COp → ClientState
  | COp.connectOp => connect st
  | COp.disconnectOp => disconnect st
  | COp.reconnectOp => reconnect st
  | COp.executeOp c p cb => execute st c p cb
  | COp.sendOp list => send st list
  | COp.messageOp now msg => (processMessage st now msg).1
  | COp.connectedOp now => evConnected st now

namespace Lifecycle

/-!
A finer-grained model of the connection lifecycle of `lib/client.js`,
tracking every `WebSocketConnection` object ever created (not only the
one currently referenced by `this._connection`) together with the pending
retry timer armed by `_createConnection(delay)`.  This is needed for the
single-open-connection invariant: the `setTimeout` callback in
`_createConnection` captures a specific connection object and checks only
`null === self._connection` before calling `connection.connect()` on the
captured object.
-/

/-- Status of one transport connection object.

Modelled from the spec: `lib/websocket-connection.js` is an external
collaborator exposing `connect()` / `send()` / `close()` and emitting
`connected` / `closed` / `connectionError`; a connection object starts
idle, `connect()` establishes the physical connection (the contract does
not make `connect()` after `close()` inert), and `close()` tears it
down. -/
inductive TStatus
  | created
  | opened
  | closed
deriving DecidableEq, Repr

/-- One transport connection object, identified by the value of
`_connectionCounter` at its creation. -/
structure TConn where
  id : Nat
  status : TStatus
deriving DecidableEq, Repr

/-- The lifecycle-level state: the client's `_connection` reference (by
id), the connection counter, every transport object created so far, the
pending retry timers (each holding the connection id captured by its
`setTimeout` closure), and the events emitted so far. -/
structure World where
  connection : Option Nat
  connectionCounter : Nat
  conns : List TConn
  timers : List Nat
  events : List Event
deriving DecidableEq, Repr

/-- Modelled from the spec: the transport's `connect()` on the object with
id `cid` establishes the physical connection. -/
def tconnect (w : World) (cid : Nat) : World :=
  { w with conns := w.conns.map (fun c =>
      if c.id = cid then { c with status := TStatus.opened } else c) }

/-- Modelled from the spec: the transport's `close()` on the object with
id `cid` tears the physical connection down. -/
def tclose (w : World) (cid : Nat) : World :=
  { w with conns := w.conns.map (fun c =>
      if c.id = cid then { c with status := TStatus.closed } else c) }

/-- `_createConnection(delay?)`: increments `_connectionCounter`, creates a
fresh `WebSocketConnection` and stores it in `self._connection`; with no
delay it calls `connection.connect()` immediately, otherwise it arms a
`setTimeout` whose closure captures the new connection object. -/
def createConnection (w : World) (delayed : Bool) : World :=
  let counter := w.connectionCounter + 1
  let w1 := { w with connectionCounter := counter
                     conns := w.conns ++ [{ id := counter, status := TStatus.created }]
                     connection := some counter }
  if delayed then { w1 with timers := w1.timers ++ [counter] }
  else tconnect w1 counter

/-- The `setTimeout` callback of `_createConnection(delay)` firing for the
oldest pending timer: it returns when `null === self._connection`
(disconnection requested by the client) and otherwise calls `connect()`
on the connection object the closure captured — whether or not that
object is still the current `self._connection`. -/
def timerFire (w : World) : World :=
  match w.timers with
  | [] => w
  | cid :: rest =>
    let w1 := { w with timers := rest }
    match w1.connection with
    | none => w1
    | some _ => tconnect w1 cid

/-- `disconnect()`: returns when no connection exists; otherwise clears
`self._connection` and calls `disconnect()` on the previous connection
object. -/
def disconnect (w : World) : World :=
  match w.connection with
  | none => w
  | some cid => tclose { w with connection := none } cid

/-- `connect()`: returns when a connection already exists; otherwise calls
`_createConnection()` with no delay. -/
def connect (w : World) : World :=
  match w.connection with
  | some _ => w
  | none => createConnection w false

/-- The transport's `disconnected` event for connection `cid`: the
transport has closed itself; the handler emits `disconnected` and calls
`_createConnection(self._retryDelay)`. -/
def evDisconnected (w : World) (cid : Nat) (code : Nat) (reason : String) : World :=
  let w1 := tclose w cid
  let w2 := { w1 with events := w1.events ++ [Event.disconnected cid code reason] }
  createConnection w2 true

/-- Number of transport connection objects currently open. -/
def openConns (w : World) : Nat :=
  (w.conns.filter (fun c => c.status == TStatus.opened)).length

/-- The world after the constructor ran with `autoConnect` (the default):
one connection created and connected. -/
def initWorld : World :=
  connect { connection := none, connectionCounter := 0, conns := [],
            timers := [], events := [] }

/-- The scenario named by the single-open-connection claim: the transport
drops the connection (a retry is scheduled with a delay), the caller
issues `disconnect()` then `connect()` before the timer fires, and then
the retry timer fires. -/
def retryRace : World :=
  timerFire (connect (disconnect (evDisconnected initWorld 1 1006 "dropped")))

end Lifecycle

/-- A transport `connectionError` event payload: whether the transport
will retry, the number of connection attempts made so far, and the error
(an opaque numeric token). -/
structure ConnErr where
  retry : Bool
  attempts : Nat
  error : Nat
deriving DecidableEq, Repr

/-- The `connectionError` handler registered by `_createConnection` on the
transport: when `err.retry` is set it emits `connectionError` with the
connection id, attempt count and error, otherwise it emits the terminal
`terminated` event with the same fields. -/
def onConnectionError (counter : Nat) (err : ConnErr) : Event :=
  if err.retry = true then Event.connectionError counter err.attempts err.error
  else Event.terminated counter err.attempts err.error

/-- Modelled from the spec: `lib/websocket-connection.js` classifies a
failed connection attempt as retryable when retries are configured as
unbounded, or while the number of retries already used is below the
configured retry count — i.e. after failed attempt number `attempts`
(1-based), a retry happens when `attempts ≤ retryCount`, matching the
spec's scenario (`retryCount=2`: attempts 1 and 2 are retryable, attempt
3 is terminal). -/
def retryPossible (retryCount : Option Nat) (attempts : Nat) : Bool :=
  match retryCount with
  | none => true
  | some n => decide (attempts ≤ n)

/-- Modelled from the spec: the sequence of `connectionError` payloads the
transport emits during `failures` consecutive failed connection attempts,
the first one numbered `k`; the transport stops attempting after the
first non-retryable failure. -/
def failureRun (retryCount : Option Nat) : Nat → Nat → List ConnErr
  | 0, _ => []
  | Nat.succ n, k =>
    let e : ConnErr := { retry := retryPossible retryCount k, attempts := k, error := 0 }
    if e.retry = true then e :: failureRun retryCount n (k + 1) else [e]

/-- C1: the claim asserts that at most one transport connection is ever
open, in particular when a retry was scheduled with a delay and the
caller issued `disconnect()` followed by `connect()` before the timer
fired.  On the code this scenario violates the invariant: the retry
timer's guard checks only `null === self._connection`, so after the
caller's `connect()` installed a fresh connection the stale timer still
calls `connect()` on the replaced connection object, leaving two
transport connections (ids 2 and 3) open at once while the client
references only connection 3. -/
theorem c1_retry_race_two_connections :
    Lifecycle.openConns Lifecycle.retryRace = 2 ∧
    Lifecycle.retryRace.connection = some 3 ∧
    Lifecycle.retryRace.conns =
      [{ id := 1, status := Lifecycle.TStatus.closed },
       { id := 2, status := Lifecycle.TStatus.opened },
       { id := 3, status := Lifecycle.TStatus.opened }] := by decide

/-- C2: processing an inbound handshake frame `{hello:{sid,isNew}}` raises
the `ready` observable when the session has never been ready; does not
re-raise it when the session is already ready and `isNew` is false; and
always raises it when `isNew` is true. -/
theorem c2_handshake_ready (st : ClientState) (now : Nat) (f : InFrame)
    (h : HelloData) (hf : f.hello = some h) :
    (st.readyTimestamp = none →
       (processMessage st now (some f)).2 = [Event.ready h.sid h.isNew]) ∧
    (st.readyTimestamp ≠ none → h.isNew = false →
       (processMessage st now (some f)).2 = []) ∧
    (h.isNew = true →
       (processMessage st now (some f)).2 = [Event.ready h.sid h.isNew]) := by
  refine ⟨fun h1 => ?_, fun h1 h2 => ?_, fun h1 => ?_⟩
  · simp [processMessage, hf, h1]
  · simp [processMessage, hf, h1, h2]
  · simp [processMessage, hf, h1]

/-- Witness for `c2_handshake_ready` at a concrete state and frame. -/
theorem c2_handshake_ready_witness :
    (processMessage (initialState "ws://h/" none [] false) 7
      (some { hello := some { sid := "s1", isNew := false } })).2 =
    [Event.ready "s1" false] :=
  (c2_handshake_ready (initialState "ws://h/" none [] false) 7
    { hello := some { sid := "s1", isNew := false } }
    { sid := "s1", isNew := false } rfl).1 rfl

/-- C7: an inbound message that fails to parse, or parses but matches none
of the handshake/result/error/notification shapes, or is any
non-handshake frame received before the session has ever been ready, is
dropped: no event is raised and the client state is unchanged. -/
theorem c7_malformed_and_early_frames_dropped (st : ClientState) (now : Nat) :
    (processMessage st now none = (st, [])) ∧
    (∀ f : InFrame, f.hello = none → f.n = none → f.r = none → f.e = none →
       processMessage st now (some f) = (st, [])) ∧
    (∀ f : InFrame, f.hello = none → st.readyTimestamp = none →
       processMessage st now (some f) = (st, [])) := by
  refine ⟨rfl, fun f h1 h2 h3 h4 => ?_, fun f h1 h2 => ?_⟩
  · by_cases hr : st.readyTimestamp = none <;>
      simp [processMessage, h1, h2, h3, h4, hr]
  · simp [processMessage, h1, h2]

/-- Witness for `c7_malformed_and_early_frames_dropped` at a concrete
state and frame. -/
theorem c7_malformed_dropped_witness :
    processMessage (initialState "ws://h/" none [] false) 3 (some { d := 9 }) =
      (initialState "ws://h/" none [] false, []) :=
  (c7_malformed_and_early_frames_dropped (initialState "ws://h/" none [] false)
      3).2.1 { d := 9 } rfl rfl rfl rfl

/-- C8: a transport connection-error that the transport classifies as
retryable makes the client raise exactly one `connectionError` event with
the connection id, attempt count and error, and the transport proceeds to
the next attempt; a non-retryable error raises exactly one terminal
`terminated` event with the same fields and the transport makes no
further attempts.  With `retryCount=2`, three consecutive failures yield
`connectionError` (attempts=1), `connectionError` (attempts=2), then
`terminated` (attempts=3), also when more failures would follow. -/
theorem c8_connection_error_sequence :
    (∀ counter err, err.retry = true →
       onConnectionError counter err =
         Event.connectionError counter err.attempts err.error) ∧
    (∀ counter err, err.retry = false →
       onConnectionError counter err =
         Event.terminated counter err.attempts err.error) ∧
    ((failureRun (some 2) 3 1).map (onConnectionError 1) =
       [Event.connectionError 1 1 0, Event.connectionError 1 2 0,
        Event.terminated 1 3 0]) ∧
    (∀ n, failureRun (some 2) (n + 3) 1 = failureRun (some 2) 3 1) := by
  refine ⟨fun counter err h => ?_, fun counter err h => ?_, by decide, fun n => rfl⟩
  · simp [onConnectionError, h]
  · simp [onConnectionError, h]

/-- Witness for `c8_connection_error_sequence` at concrete error
payloads. -/
theorem c8_connection_error_witness :
    onConnectionError 1 { retry := true, attempts := 1, error := 5 } =
      Event.connectionError 1 1 5 ∧
    onConnectionError 1 { retry := false, attempts := 3, error := 5 } =
      Event.terminated 1 3 5 :=
  ⟨c8_connection_error_sequence.1 1 { retry := true, attempts := 1, error := 5 } rfl,
   c8_connection_error_sequence.2.1 1 { retry := false, attempts := 3, error := 5 } rfl⟩

/-- `_send` queues (and does not transmit) when no connection exists, when
the connection is not connected, or when the session was never ready. -/
theorem send_buffers (st : ClientState) (l : List OutMessage)
    (h : st.connection = none ∨ (∃ c, st.connection = some c ∧ c.connected = false) ∨
         st.readyTimestamp = none) :
    (send st l).queue = st.queue ++ l ∧ sentOf (send st l) = sentOf st := by
  unfold send
  cases hc : st.connection with
  | none => simp [createConnection, queueMessages, sentOf, hc]
  | some c =>
    rcases h with h | ⟨c', hc', hcf⟩ | hready
    · rw [hc] at h
      cases h
    · rw [hc] at hc'
      injection hc' with he
      subst he
      simp [hcf, queueMessages, sentOf, hc]
    · by_cases hcf : c.connected = false
      · simp [hcf, queueMessages, sentOf, hc]
      · simp [hcf, hready, queueMessages, sentOf, hc]

/-- `_send` transmits immediately (and does not queue) when a connected
connection exists and the session has been ready. -/
theorem send_transmits (st : ClientState) (c : Conn) (l : List OutMessage)
    (hc : st.connection = some c) (hcc : c.connected = true)
    (hready : st.readyTimestamp ≠ none) :
    (send st l).queue = st.queue ∧ sentOf (send st l) = sentOf st ++ l := by
  unfold send
  rw [hc]
  simp [hcc, hready, sentOf, hc]

/-- C3: a send request is buffered rather than transmitted exactly when no
transport connection exists, or the connection is not open, or the
session has never been ready; when all three conditions are false the
frames are transmitted immediately without buffering. -/
theorem c3_send_policy (st : ClientState) (l : List OutMessage) :
    ((st.connection = none ∨ (∃ c, st.connection = some c ∧ c.connected = false) ∨
        st.readyTimestamp = none) →
       (send st l).queue = st.queue ++ l ∧ sentOf (send st l) = sentOf st) ∧
    (∀ c, st.connection = some c → c.connected = true → st.readyTimestamp ≠ none →
       (send st l).queue = st.queue ∧ sentOf (send st l) = sentOf st ++ l) :=
  ⟨send_buffers st l, fun c hc hcc hready => send_transmits st c l hc hcc hready⟩

/-- A client state whose session is ready with an open connection. -/
def readySt : ClientState :=
  { initialState "ws://h/" (some "sess") [] false with
      readyTimestamp := some 1
      connection := some { id := 1, connected := true, sent := [] }
      connectionCounter := 1 }

/-- Witness for `c3_send_policy`: a not-yet-ready client buffers a frame; a
ready connected client transmits it. -/
theorem c3_send_policy_witness :
    ((send (initialState "ws://h/" none [] false) [{ m := "getPairs" }]).queue =
       [{ m := "getPairs" }] ∧
     sentOf (send (initialState "ws://h/" none [] false) [{ m := "getPairs" }]) = []) ∧
    ((send readySt [{ m := "getPairs" }]).queue = [] ∧
     sentOf (send readySt [{ m := "getPairs" }]) = [{ m := "getPairs" }]) := by
  have h1 := (c3_send_policy (initialState "ws://h/" none [] false)
    [{ m := "getPairs" }]).1 (Or.inr (Or.inr rfl))
  have h2 := (c3_send_policy readySt [{ m := "getPairs" }]).2
    { id := 1, connected := true, sent := [] } rfl rfl (by decide)
  exact ⟨by simpa using h1, by simpa [readySt, sentOf] using h2⟩

/-- `_processQueue` with a connection present sends the whole queue in
order and clears it (an empty queue is a no-op, which satisfies the same
equations). -/
theorem processQueue_spec (st : ClientState) (c : Conn)
    (hc : st.connection = some c) :
    (processQueue st).queue = [] ∧ sentOf (processQueue st) = c.sent ++ st.queue := by
  unfold processQueue
  by_cases hq : st.queue.length = 0
  · have hnil : st.queue = [] := List.length_eq_zero.mp hq
    simp [hq, hnil, sentOf, hc]
  · simp [hq, hc, sentOf]

/-- C4: frames buffered while the session is not ready are flushed to the
transport in exact enqueue order (which is send-call order) with no gaps
or reordering, after which the buffer is empty; frames enqueued on top of
an existing buffer are flushed after the already-buffered frames, never
dropped and never reordered ahead of them. -/
theorem c4_flush_fifo (st : ClientState) (c : Conn) (l : List OutMessage)
    (hc : st.connection = some c) :
    (queueMessages st l).queue = st.queue ++ l ∧
    (processQueue st).queue = [] ∧
    sentOf (processQueue st) = c.sent ++ st.queue ∧
    (processQueue (queueMessages st l)).queue = [] ∧
    sentOf (processQueue (queueMessages st l)) = c.sent ++ (st.queue ++ l) := by
  have h1 := processQueue_spec st c hc
  have h2 := processQueue_spec (queueMessages st l) c (by simpa [queueMessages] using hc)
  exact ⟨rfl, h1.1, h1.2, h2.1, by simpa [queueMessages] using h2.2⟩

/-- Witness for `c4_flush_fifo`: two buffered frames are flushed in order
and a frame enqueued afterwards is flushed after them. -/
theorem c4_flush_fifo_witness :
    sentOf (processQueue
      { readySt with queue := [{ m := "a" }, { m := "b" }] }) =
      [{ m := "a" }, { m := "b" }] ∧
    sentOf (processQueue (queueMessages
      { readySt with queue := [{ m := "a" }, { m := "b" }] } [{ m := "c" }])) =
      [{ m := "a" }, { m := "b" }, { m := "c" }] := by
  have h := c4_flush_fifo { readySt with queue := [{ m := "a" }, { m := "b" }] }
    { id := 1, connected := true, sent := [] } [{ m := "c" }] rfl
  exact ⟨by simpa using h.2.2.1, by simpa using h.2.2.2.2⟩

/-- C6: an inbound result frame `{i,r}` (or error frame `{i,e}`) received
after the session is ready removes the pending entry for `i` and invokes
its handler exactly once, with the result and no error (or no result and
the error); when no pending entry for `i` exists the frame changes
nothing and raises nothing. -/
theorem c6_result_error_dispatch (st : ClientState) (now : Nat) (f : InFrame)
    (i : Nat) (hready : st.readyTimestamp ≠ none) (hh : f.hello = none)
    (hn : f.n = none) (hi : f.i = some i) :
    (∀ r, f.r = some r →
       (∀ cb, st.callbacks.lookup i = some cb →
          processMessage st now (some f) =
            ({ st with callbacks := st.callbacks.eraseP (fun kv => kv.1 == i) },
             [Event.invoked cb (some r) none])) ∧
       (st.callbacks.lookup i = none → processMessage st now (some f) = (st, []))) ∧
    (∀ e, f.r = none → f.e = some e →
       (∀ cb, st.callbacks.lookup i = some cb →
          processMessage st now (some f) =
            ({ st with callbacks := st.callbacks.eraseP (fun kv => kv.1 == i) },
             [Event.invoked cb none (some e)])) ∧
       (st.callbacks.lookup i = none → processMessage st now (some f) = (st, []))) := by
  constructor
  · intro r hr
    constructor
    · intro cb hcb
      simp [processMessage, hh, hn, hi, hr, hready, processResultMessage, hcb]
    · intro hcb
      simp [processMessage, hh, hn, hi, hr, hready, processResultMessage, hcb]
  · intro e hr he
    constructor
    · intro cb hcb
      simp [processMessage, hh, hn, hi, hr, he, hready, processErrorMessage, hcb]
    · intro hcb
      simp [processMessage, hh, hn, hi, hr, he, hready, processErrorMessage, hcb]

/-- Witness for `c6_result_error_dispatch`: a known id resolves its
handler; an unknown id is ignored. -/
theorem c6_result_error_witness :
    processMessage { readySt with callbacks := [(1, 77)] } 9
      (some { r := some 42, i := some 1 }) =
      ({ readySt with callbacks := [] }, [Event.invoked 77 (some 42) none]) ∧
    processMessage { readySt with callbacks := [(1, 77)] } 9
      (some { r := some 42, i := some 2 }) =
      ({ readySt with callbacks := [(1, 77)] }, []) := by
  have h1 := ((c6_result_error_dispatch { readySt with callbacks := [(1, 77)] } 9
    { r := some 42, i := some 1 } 1 (by decide) rfl rfl rfl).1 42 rfl).1 77 rfl
  have h2 := ((c6_result_error_dispatch { readySt with callbacks := [(1, 77)] } 9
    { r := some 42, i := some 2 } 2 (by decide) rfl rfl rfl).1 42 rfl).2 rfl
  constructor
  · simpa using h1
  · simpa using h2

/-- C9: when a session identifier is known, `_getUri` includes it as the
`sid` query parameter; once the session has ever been ready, the
first-connection-only parameters `expires` and `timeout` are omitted
while every other stored query parameter is preserved (before the first
readiness all stored parameters are preserved). -/
theorem c9_uri_params (st : ClientState) (sid : String)
    (hs : st.sessionId = some sid) :
    ("sid", sid) ∈ (getUri st).2 ∧
    (st.readyTimestamp ≠ none →
       (∀ kv ∈ (getUri st).2, kv.1 ≠ "expires" ∧ kv.1 ≠ "timeout") ∧
       (∀ kv ∈ st.queryParams, kv.1 ≠ "expires" → kv.1 ≠ "timeout" →
          kv ∈ (getUri st).2)) ∧
    (st.readyTimestamp = none → ∀ kv ∈ st.queryParams, kv ∈ (getUri st).2) := by
  refine ⟨?_, fun hready => ⟨fun kv hkv => ?_, fun kv hkv h1 h2 => ?_⟩,
    fun hready kv hkv => ?_⟩
  · simp [getUri, hs]
  · simp only [getUri, hs] at hkv
    rcases List.mem_cons.mp hkv with h | h
    · subst h
      exact ⟨by simp, by simp⟩
    · rcases List.mem_filterMap.mp h with ⟨a, _, hfa⟩
      by_cases hcond : (a.1 = "expires" ∨ a.1 = "timeout") ∧ st.readyTimestamp ≠ none
      · simp [hcond] at hfa
      · rw [if_neg hcond] at hfa
        injection hfa with he
        subst he
        constructor
        · intro hx
          exact hcond ⟨Or.inl hx, hready⟩
        · intro hx
          exact hcond ⟨Or.inr hx, hready⟩
  · simp only [getUri, hs]
    refine List.mem_cons_of_mem _ (List.mem_filterMap.mpr ⟨kv, hkv, ?_⟩)
    rw [if_neg]
    intro hx
    rcases hx.1 with h | h
    · exact h1 h
    · exact h2 h
  · simp only [getUri, hs]
    refine List.mem_cons_of_mem _ (List.mem_filterMap.mpr ⟨kv, hkv, ?_⟩)
    rw [if_neg]
    intro hx
    exact hx.2 hready

/-- A client state with stored query parameters, a known session id, and a
session that has been ready. -/
def uriSt : ClientState :=
  { initialState "ws://h/"
      (some "sess") [("expires", "600"), ("timeout", "30"), ("foo", "bar")] false with
      readyTimestamp := some 5 }

/-- Witness for `c9_uri_params`: on a ready state the `sid` and `foo`
parameters are present and nothing named `expires` survives. -/
theorem c9_uri_params_witness :
    ("sid", "sess") ∈ (getUri uriSt).2 ∧
    ("foo", "bar") ∈ (getUri uriSt).2 ∧
    (∀ kv ∈ (getUri uriSt).2, kv.1 ≠ "expires") := by
  have h := c9_uri_params uriSt "sess" rfl
  refine ⟨h.1, ?_, fun kv hkv => ((h.2.1 (by decide)).1 kv hkv).1⟩
  exact (h.2.1 (by decide)).2 ("foo", "bar") (by decide) (by decide) (by decide)

/-- `_send` never touches the ready timestamp, the command counter or the
callback map. -/
theorem send_preserves (st : ClientState) (l : List OutMessage) :
    (send st l).readyTimestamp = st.readyTimestamp ∧
    (send st l).nextCommandId = st.nextCommandId ∧
    (send st l).callbacks = st.callbacks := by
  unfold send
  cases st.connection with
  | none => exact ⟨rfl, rfl, rfl⟩
  | some c =>
    by_cases h1 : c.connected = false
    · simp [h1, queueMessages]
    · by_cases h2 : st.readyTimestamp = none
      · simp [h1, h2, queueMessages]
      · simp [h1, h2]

/-- `_processQueue` never touches the ready timestamp, the command counter
or the callback map. -/
theorem processQueue_preserves (st : ClientState) :
    (processQueue st).readyTimestamp = st.readyTimestamp ∧
    (processQueue st).nextCommandId = st.nextCommandId ∧
    (processQueue st).callbacks = st.callbacks := by
  unfold processQueue
  by_cases hq : st.queue.length = 0
  · simp [hq]
  · cases st.connection <;> simp [hq]

/-- `_processResultMessage` never touches the ready timestamp or the
command counter, and only ever removes callback entries. -/
theorem processResultMessage_preserves (st : ClientState) (data : InFrame) :
    (processResultMessage st data).1.readyTimestamp = st.readyTimestamp ∧
    (processResultMessage st data).1.nextCommandId = st.nextCommandId ∧
    (processResultMessage st data).1.callbacks.Sublist st.callbacks := by
  obtain ⟨hello, n, d, r, e, i⟩ := data
  cases i with
  | none => exact ⟨rfl, rfl, List.Sublist.refl _⟩
  | some i =>
    unfold processResultMessage
    dsimp only
    cases st.callbacks.lookup i with
    | none => exact ⟨rfl, rfl, List.Sublist.refl _⟩
    | some cb => exact ⟨rfl, rfl, List.eraseP_sublist _⟩

/-- `_processErrorMessage` never touches the ready timestamp or the
command counter, and only ever removes callback entries. -/
theorem processErrorMessage_preserves (st : ClientState) (data : InFrame) :
    (processErrorMessage st data).1.readyTimestamp = st.readyTimestamp ∧
    (processErrorMessage st data).1.nextCommandId = st.nextCommandId ∧
    (processErrorMessage st data).1.callbacks.Sublist st.callbacks := by
  obtain ⟨hello, n, d, r, e, i⟩ := data
  cases i with
  | none => exact ⟨rfl, rfl, List.Sublist.refl _⟩
  | some i =>
    unfold processErrorMessage
    dsimp only
    cases st.callbacks.lookup i with
    | none => exact ⟨rfl, rfl, List.Sublist.refl _⟩
    | some cb => exact ⟨rfl, rfl, List.eraseP_sublist _⟩

/-- `_processMessage` either keeps the ready timestamp or sets it to the
current time, never touches the command counter, and only ever removes
callback entries. -/
theorem processMessage_preserves (st : ClientState) (now : Nat)
    (msg : Option InFrame) :
    ((processMessage st now msg).1.readyTimestamp = st.readyTimestamp ∨
       (processMessage st now msg).1.readyTimestamp = some now) ∧
    (processMessage st now msg).1.nextCommandId = st.nextCommandId ∧
    (processMessage st now msg).1.callbacks.Sublist st.callbacks := by
  cases msg with
  | none => exact ⟨Or.inl rfl, rfl, List.Sublist.refl _⟩
  | some data =>
    obtain ⟨hello, n, d, r, e, i⟩ := data
    cases hello with
    | some h =>
      unfold processMessage
      dsimp only
      split
      · have hp := processQueue_preserves
          { st with sessionId := some h.sid, readyTimestamp := some now }
        refine ⟨Or.inr ?_, ?_, ?_⟩
        · rw [hp.1]
        · rw [hp.2.1]
        · rw [hp.2.2]
      · have hp := processQueue_preserves { st with sessionId := some h.sid }
        refine ⟨Or.inl ?_, ?_, ?_⟩
        · rw [hp.1]
        · rw [hp.2.1]
        · rw [hp.2.2]
    | none =>
      unfold processMessage
      dsimp only
      split
      · exact ⟨Or.inl rfl, rfl, List.Sublist.refl _⟩
      · cases n with
        | some kind => exact ⟨Or.inl rfl, rfl, List.Sublist.refl _⟩
        | none =>
          cases r with
          | some rv =>
            have hp := processResultMessage_preserves st
              { hello := none, n := none, d := d, r := some rv, e := e, i := i }
            exact ⟨Or.inl hp.1, hp.2.1, hp.2.2⟩
          | none =>
            cases e with
            | some ev =>
              have hp := processErrorMessage_preserves st
                { hello := none, n := none, d := d, r := none, e := some ev, i := i }
              exact ⟨Or.inl hp.1, hp.2.1, hp.2.2⟩
            | none => exact ⟨Or.inl rfl, rfl, List.Sublist.refl _⟩

/-- The correlation ids currently pending a reply. -/
def callbackIds (st : ClientState) : List Nat := st.callbacks.map Prod.fst

/-- The invariant tying the callback map to `_nextCommandId`: every
pending correlation id is below the counter and no id is pending
twice. -/
def goodState (st : ClientState) : Prop :=
  (∀ k ∈ callbackIds st, k < st.nextCommandId) ∧ (callbackIds st).Nodup

/-- `goodState` transfers along equal callback maps and counters. -/
theorem goodState_of_eq {st st' : ClientState} (hg : goodState st)
    (hcb : st'.callbacks = st.callbacks)
    (hid : st'.nextCommandId = st.nextCommandId) : goodState st' := by
  unfold goodState callbackIds at *
  rw [hcb, hid]
  exact hg

/-- `goodState` is stable under dropping callback entries and growing the
counter. -/
theorem goodState_of_sublist {st st' : ClientState} (hg : goodState st)
    (hcb : st'.callbacks.Sublist st.callbacks)
    (hid : st.nextCommandId ≤ st'.nextCommandId) : goodState st' := by
  unfold goodState callbackIds at *
  refine ⟨fun k hk => ?_, hg.2.sublist (hcb.map Prod.fst)⟩
  exact lt_of_lt_of_le (hg.1 k ((hcb.map Prod.fst).subset hk)) hid

/-- No client operation ever decreases `_nextCommandId`. -/
theorem applyOp_nextCommandId_mono (st : ClientState) (op : COp) :
    st.nextCommandId ≤ (applyOp st op).nextCommandId := by
  cases op with
  | connectOp =>
    dsimp [applyOp]
    unfold connect
    cases st.connection with
    | some c => exact Nat.le_refl _
    | none => exact Nat.le_refl _
  | disconnectOp =>
    dsimp [applyOp]
    unfold disconnect
    cases st.connection with
    | some c => exact Nat.le_refl _
    | none => exact Nat.le_refl _
  | reconnectOp =>
    dsimp [applyOp]
    unfold reconnect
    cases st.connection with
    | some c => exact Nat.le_refl _
    | none => exact Nat.le_refl _
  | connectedOp now =>
    dsimp [applyOp]
    unfold evConnected
    cases st.connection with
    | some c => exact Nat.le_refl _
    | none => exact Nat.le_refl _
  | sendOp l => exact le_of_eq (send_preserves st l).2.1.symm
  | messageOp now msg => exact le_of_eq (processMessage_preserves st now msg).2.1.symm
  | executeOp c p cb =>
    cases cb with
    | none => exact le_of_eq (send_preserves st [{ m := c, p := p }]).2.1.symm
    | some hdl =>
      have hp := (send_preserves
        { st with nextCommandId := st.nextCommandId + 1
                  callbacks := (st.nextCommandId, hdl) :: st.callbacks }
        [{ m := c, p := p, i := some st.nextCommandId }]).2.1
      show st.nextCommandId ≤ (send
        { st with nextCommandId := st.nextCommandId + 1
                  callbacks := (st.nextCommandId, hdl) :: st.callbacks }
        [{ m := c, p := p, i := some st.nextCommandId }]).nextCommandId
      rw [hp]
      exact Nat.le_succ _

/-- Every client operation preserves the correlation-id invariant. -/
theorem applyOp_goodState (st : ClientState) (op : COp) (hg : goodState st) :
    goodState (applyOp st op) := by
  cases op with
  | connectOp =>
    dsimp [applyOp]
    unfold connect
    cases st.connection with
    | some c => exact hg
    | none => exact goodState_of_eq hg rfl rfl
  | disconnectOp =>
    dsimp [applyOp]
    unfold disconnect
    cases st.connection with
    | some c => exact goodState_of_eq hg rfl rfl
    | none => exact hg
  | reconnectOp =>
    dsimp [applyOp]
    unfold reconnect
    cases st.connection with
    | some c => exact goodState_of_eq hg rfl rfl
    | none => exact hg
  | connectedOp now =>
    dsimp [applyOp]
    unfold evConnected
    cases st.connection with
    | some c => exact goodState_of_eq hg rfl rfl
    | none => exact hg
  | sendOp l =>
    have hp := send_preserves st l
    exact goodState_of_eq hg hp.2.2 hp.2.1
  | messageOp now msg =>
    have hp := processMessage_preserves st now msg
    exact goodState_of_sublist hg hp.2.2 (le_of_eq hp.2.1.symm)
  | executeOp c p cb =>
    cases cb with
    | none =>
      have hp := send_preserves st [{ m := c, p := p }]
      exact goodState_of_eq hg hp.2.2 hp.2.1
    | some hdl =>
      have hp := send_preserves
        { st with nextCommandId := st.nextCommandId + 1
                  callbacks := (st.nextCommandId, hdl) :: st.callbacks }
        [{ m := c, p := p, i := some st.nextCommandId }]
      show goodState (send
        { st with nextCommandId := st.nextCommandId + 1
                  callbacks := (st.nextCommandId, hdl) :: st.callbacks }
        [{ m := c, p := p, i := some st.nextCommandId }])
      refine goodState_of_eq ?_ hp.2.2 hp.2.1
      unfold goodState callbackIds at hg ⊢
      dsimp only
      constructor
      · intro k hk
        simp only [List.map_cons, List.mem_cons] at hk
        rcases hk with rfl | hk
        · exact Nat.lt_succ_self _
        · exact Nat.lt_succ_of_lt (hg.1 k hk)
      · simp only [List.map_cons, List.nodup_cons]
        exact ⟨fun hmem => absurd (hg.1 _ hmem) (lt_irrefl _), hg.2⟩

/-- No client operation ever clears the ready timestamp. -/
theorem applyOp_ready_latch (st : ClientState) (op : COp)
    (h : st.readyTimestamp ≠ none) : (applyOp st op).readyTimestamp ≠ none := by
  cases op with
  | connectOp =>
    dsimp [applyOp]
    unfold connect
    cases st.connection with
    | some c => exact h
    | none => exact h
  | disconnectOp =>
    dsimp [applyOp]
    unfold disconnect
    cases st.connection with
    | some c => exact h
    | none => exact h
  | reconnectOp =>
    dsimp [applyOp]
    unfold reconnect
    cases st.connection with
    | some c => exact h
    | none => exact h
  | connectedOp now =>
    dsimp [applyOp]
    unfold evConnected
    cases st.connection with
    | some c => exact h
    | none => exact h
  | sendOp l =>
    have hp := send_preserves st l
    dsimp [applyOp]
    rw [hp.1]
    exact h
  | messageOp now msg =>
    have hp := processMessage_preserves st now msg
    dsimp [applyOp]
    rcases hp.1 with he | he
    · rw [he]
      exact h
    · rw [he]
      exact Option.some_ne_none _
  | executeOp c p cb =>
    cases cb with
    | none =>
      have hp := send_preserves st [{ m := c, p := p }]
      show (send st [{ m := c, p := p }]).readyTimestamp ≠ none
      rw [hp.1]
      exact h
    | some hdl =>
      have hp := send_preserves
        { st with nextCommandId := st.nextCommandId + 1
                  callbacks := (st.nextCommandId, hdl) :: st.callbacks }
        [{ m := c, p := p, i := some st.nextCommandId }]
      show (send
        { st with nextCommandId := st.nextCommandId + 1
                  callbacks := (st.nextCommandId, hdl) :: st.callbacks }
        [{ m := c, p := p, i := some st.nextCommandId }]).readyTimestamp ≠ none
      rw [hp.1]
      exact h

/-- C5: `execute` with a result handler attaches the next value of the
monotonic correlation counter (which starts at 1 and is never decreased
or reset by any operation) to the frame and registers the pending entry
before handing the frame to the send path; without a handler the frame
carries no correlation id; and under the counter invariant (which holds
initially and is preserved by every operation) a freshly assigned id is
never already pending, so no id is ever assigned to two commands
simultaneously pending a reply. -/
theorem c5_correlation_ids :
    (∀ uri sid qp gl, (initialState uri sid qp gl).nextCommandId = 1 ∧
       goodState (initialState uri sid qp gl)) ∧
    (∀ st command params hdl,
       execute st command params (some hdl) =
         send { st with nextCommandId := st.nextCommandId + 1
                        callbacks := (st.nextCommandId, hdl) :: st.callbacks }
           [{ m := command, p := params, i := some st.nextCommandId }]) ∧
    (∀ st command params,
       execute st command params none =
         send st [{ m := command, p := params, i := none }]) ∧
    (∀ st op, st.nextCommandId ≤ (applyOp st op).nextCommandId) ∧
    (∀ st, goodState st → st.nextCommandId ∉ callbackIds st) ∧
    (∀ st op, goodState st → goodState (applyOp st op)) := by
  refine ⟨fun uri sid qp gl => ⟨rfl, ?_⟩, fun st c p hdl => rfl, fun st c p => rfl,
    applyOp_nextCommandId_mono, fun st hg hmem => absurd (hg.1 _ hmem) (lt_irrefl _),
    fun st op hg => applyOp_goodState st op hg⟩
  exact ⟨fun k hk => absurd hk (List.not_mem_nil k), List.nodup_nil⟩

/-- Witness for `c5_correlation_ids` at a concrete fresh client. -/
theorem c5_correlation_ids_witness :
    (initialState "ws://h/" none [] false).nextCommandId = 1 ∧
    (1 : Nat) ∉ callbackIds (initialState "ws://h/" none [] false) ∧
    goodState (applyOp (initialState "ws://h/" none [] false)
      (COp.executeOp "getPairs" none (some 7))) :=
  ⟨(c5_correlation_ids.1 "ws://h/" none [] false).1,
   c5_correlation_ids.2.2.2.2.1 (initialState "ws://h/" none [] false)
     (c5_correlation_ids.1 "ws://h/" none [] false).2,
   c5_correlation_ids.2.2.2.2.2 (initialState "ws://h/" none [] false)
     (COp.executeOp "getPairs" none (some 7))
     (c5_correlation_ids.1 "ws://h/" none [] false).2⟩

/-- C10: readiness is latched for the lifetime of the client instance — no
operation (disconnect, reconnect, connect, a transport event or any
send/execute/message processing) ever clears the ready timestamp — and a
send issued while a connection is open and the ready timestamp is set
(e.g. after a reconnection, before the new connection's handshake) is
transmitted immediately rather than buffered. -/
theorem c10_ready_latched :
    (∀ st op, st.readyTimestamp ≠ none → (applyOp st op).readyTimestamp ≠ none) ∧
    (∀ st c l, st.connection = some c → c.connected = true →
       st.readyTimestamp ≠ none →
       (send st l).queue = st.queue ∧ sentOf (send st l) = sentOf st ++ l) :=
  ⟨applyOp_ready_latch,
   fun st c l hc hcc hready => send_transmits st c l hc hcc hready⟩

/-- Witness for `c10_ready_latched`: a ready client stays ready across an
explicit disconnect, and a send on a ready connected client is
transmitted. -/
theorem c10_ready_latched_witness :
    (applyOp readySt COp.disconnectOp).readyTimestamp ≠ none ∧
    (send readySt [{ m := "a" }]).queue = [] ∧
    sentOf (send readySt [{ m := "a" }]) = [{ m := "a" }] := by
  have h1 := c10_ready_latched.1 readySt COp.disconnectOp (by decide)
  have h2 := c10_ready_latched.2 readySt { id := 1, connected := true, sent := [] }
    [{ m := "a" }] rfl rfl (by decide)
  exact ⟨h1, by simpa using h2.1, by simpa [readySt, sentOf] using h2.2⟩
